import Mathlib

/-!
# Verification of the vision-servicenode specification against its code

Shallow embedding of the parts of the `AlwinBrauns/servicenode` repository
that the frozen claims are about:

* the `BlockchainClient` base behaviour (`vision/servicenode/blockchains/base.py`,
  present in the repository only through its tests in
  `tests/blockchains/test_base.py`; the behaviour is therefore modelled from
  the specification, faithful to its words and consistent with the tests),
* the REST API request boundary (`vision/servicenode/restapi.py`),
* the Celery queue wiring and startup purge (`vision/servicenode/celery.py`).

Machine integers of the source are modelled as `Nat`/`Int`; exception-based
control flow is modelled with `Except`/`Option`; the side effects the claims
talk about (persisted records, enqueued work) are modelled as explicit state
threaded through the handler functions.
-/

namespace ServiceNode

/-! ## Underlying chain-access utility (external collaborator)

The `vision-common` blockchain utilities are external to this repository.
The claims only need: the utility's error type, its transaction-submission
status response, and the fact that each call either succeeds or fails with a
`BlockchainUtilitiesError`.  A call's outcome is passed in as an `Except`
value. -/

/-- The raw error type of the underlying chain-access utility
(`vision.common.blockchains.base.BlockchainUtilitiesError`). -/
structure BlockchainUtilitiesError where
  message : String
  deriving DecidableEq, Repr

/-- Transaction status vocabulary of `vision.common.entities.TransactionStatus`
as used by the spec and the tests: the terminal outcomes. -/
inductive TransactionStatus where
  | confirmed
  | reverted
  deriving DecidableEq, Repr

/-- The status response returned by the underlying utility
(`BlockchainUtilities.TransactionSubmissionStatusResponse`): a completion
flag and, when completed, the terminal status and the chain transaction id
(cf. its constructions in `tests/blockchains/test_base.py`). -/
structure UtilityStatusResponse where
  transaction_submission_completed : Bool
  transaction_status : Option TransactionStatus
  transaction_id : Option String
  deriving DecidableEq, Repr

/-! ## BlockchainClient error taxonomy -/

/-- The error kinds a `BlockchainClient` operation can fail with.  In the
source, `UnresolvableTransferSubmissionError` is a distinct error class next
to the component's coarse `BlockchainClientError`; an embedded error value
carries the original underlying failure as its wrapped cause (Python's
`raise ... from ...` / implicit `__context__` chaining), or `none` when there
is no underlying cause. -/
inductive ClientError where
  | blockchainClientError (message : String) (cause : Option BlockchainUtilitiesError)
  | unresolvableTransferSubmission (cause : Option BlockchainUtilitiesError)
  deriving DecidableEq, Repr

/-- Whether an embedded error is the `UnresolvableTransferSubmissionError`
kind. -/
def ClientError.isUnresolvableTransferSubmission : ClientError → Bool
  | .unresolvableTransferSubmission _ => true
  | .blockchainClientError _ _ => false

/-- The wrapped cause of an embedded error (the original underlying failure
preserved by error chaining). -/
def ClientError.cause : ClientError → Option BlockchainUtilitiesError
  | .unresolvableTransferSubmission c => c
  | .blockchainClientError _ c => c

/-! ## BlockchainClient construction -/

/-- Chain configuration held by a client (the fields of `_MOCK_CONFIG` the
claims need are irrelevant; the configuration is opaque data here). -/
structure ChainConfig where
  average_block_time : Nat
  confirmations : Nat
  chain_id : Nat
  deriving DecidableEq, Repr

/-- The state a successfully constructed `BlockchainClient` owns: its chain
configuration and its initialized underlying utility (opaque handle). -/
structure BlockchainClientState where
  config : ChainConfig
  utilitiesInitialized : Bool
  deriving DecidableEq, Repr

/-- Modelled from the spec: `BlockchainClient.__init__` of
`vision/servicenode/blockchains/base.py` (absent from `src/`; only its tests
are present).  Construction loads the chain configuration and initializes the
underlying blockchain utilities; if the utility initialization fails with a
`BlockchainUtilitiesError`, the constructor fails with the component's
classified `BlockchainClientError`, preserving the original failure as the
wrapped cause (error chaining), never discarding it and never propagating it
raw.  The outcome of `initialize_blockchain_utilities` is passed in as an
`Except` value. -/
def blockchainClientInit (config : ChainConfig)
    (initializeUtilitiesResult : Except BlockchainUtilitiesError Unit) :
    Except ClientError BlockchainClientState :=
  match initializeUtilitiesResult with
  | .ok _ => .ok { config := config, utilitiesInitialized := true }
  | .error e =>
      .error (.blockchainClientError "unable to initialize the blockchain client" (some e))

/-! ## get_transfer_submission_status -/

/-- The `TransactionSubmissionStatusResponse` value object returned by
`BlockchainClient.get_transfer_submission_status`: a completion flag and,
when completed, the terminal transaction status and chain transaction id,
plus — only for a CONFIRMED outcome — the on-chain transfer id. -/
structure TransferSubmissionStatusResponse where
  transaction_submission_completed : Bool
  transaction_status : Option TransactionStatus
  transaction_id : Option String
  on_chain_transfer_id : Option Nat
  deriving DecidableEq, Repr

/-- Modelled from the spec: `BlockchainClient.get_transfer_submission_status`
of `vision/servicenode/blockchains/base.py` (absent from `src/`; only its
tests are present).  It asks the underlying utility for the submission status
of the previously submitted transaction and, only if that status reports a
terminal CONFIRMED outcome, additionally resolves the on-chain transfer id
via the separate read `_read_on_chain_transfer_id`.  Any underlying failure
during this polling is translated, not propagated raw, into an
`UnresolvableTransferSubmissionError`.  The outcomes of the two underlying
reads are passed in as `Except` values. -/
def get_transfer_submission_status
    (utilityStatusResult : Except BlockchainUtilitiesError UtilityStatusResponse)
    (readOnChainTransferIdResult : Except BlockchainUtilitiesError Nat) :
    Except ClientError TransferSubmissionStatusResponse :=
  match utilityStatusResult with
  | .error e => .error (.unresolvableTransferSubmission (some e))
  | .ok statusResponse =>
      if statusResponse.transaction_submission_completed then
        match statusResponse.transaction_status with
        | some .confirmed =>
            match readOnChainTransferIdResult with
            | .error e => .error (.unresolvableTransferSubmission (some e))
            | .ok onChainTransferId =>
                .ok { transaction_submission_completed := true,
                      transaction_status := statusResponse.transaction_status,
                      transaction_id := statusResponse.transaction_id,
                      on_chain_transfer_id := some onChainTransferId }
        | _ =>
            .ok { transaction_submission_completed := true,
                  transaction_status := statusResponse.transaction_status,
                  transaction_id := statusResponse.transaction_id,
                  on_chain_transfer_id := none }
      else
        .ok { transaction_submission_completed := false,
              transaction_status := none,
              transaction_id := none,
              on_chain_transfer_id := none }

/-! ## Celery queue wiring (`vision/servicenode/celery.py`) -/

/-- `_TRANSFERS_QUEUE_NAME` of `vision/servicenode/celery.py`. -/
def TRANSFERS_QUEUE_NAME : String := "transfers"

/-- `_BIDS_QUEUE_NAME` of `vision/servicenode/celery.py`. -/
def BIDS_QUEUE_NAME : String := "bids"

/-- `_TRANSACTIONS_QUEUE_NAME` of `vision/servicenode/celery.py`. -/
def TRANSACTIONS_QUEUE_NAME : String := "transactions"

/-- Whether a task name matches the glob
`vision.servicenode.business.transfers.*` of the `task_routes` dict, i.e.
starts with that module prefix (checked on the character lists). -/
def matchesTransfersGlob (taskName : String) : Bool :=
  List.isPrefixOf ("vision.servicenode.business.transfers.".data) taskName.data

/-- The `task_routes` mapping configured on `celery_app.conf` together with
`task_default_queue`, as a function from a task's full name to the queue it
is dispatched to.  The routes are tried in their order in the source dict;
the entry for `vision.servicenode.business.transfers.*` is a glob and
matches every task name with that module prefix.  Any unrouted task falls
back to `task_default_queue`, which is also `transfers`. -/
def routeTaskToQueue (taskName : String) : String :=
  if taskName = "vision.servicenode.business.plugins.execute_bid_plugin" then
    BIDS_QUEUE_NAME
  else if matchesTransfersGlob taskName then
    TRANSFERS_QUEUE_NAME
  else if taskName = "vision.common.blockchains.tasks._transaction_resubmission_task" then
    TRANSFERS_QUEUE_NAME
  else if taskName = "vision.servicenode.business.tasks._dependent_transaction_submission_task" then
    TRANSACTIONS_QUEUE_NAME
  else
    "transfers"

/-! ## Startup bid-queue purge (`vision/servicenode/celery.py`, main-module block)

The broker is an external collaborator (AMQP); its state is modelled as an
association list from queue names to the pending messages they hold.
`queue_purge` empties the named queue and fails (AMQP `NotFound`) when the
queue does not exist. -/

/-- Contents lookup in the broker state: the pending messages of the first
queue with the given name, or `none` when no such queue exists. -/
def queueContents : List (String × List String) → String → Option (List String)
  | [], _ => none
  | q :: rest, name => if q.1 = name then some q.2 else queueContents rest name

/-- `connection.default_channel.queue_purge(name)` on the AMQP broker:
discards all pending messages of the named queue; `none` models the
`amqp.exceptions.NotFound` error raised when the queue does not exist. -/
def queue_purge : List (String × List String) → String → Option (List (String × List String))
  | [], _ => none
  | q :: rest, name =>
      if q.1 = name then some ((q.1, []) :: rest)
      else
        match queue_purge rest name with
        | some rest2 => some (q :: rest2)
        | none => none

/-- Result of the startup block of `vision/servicenode/celery.py`:
the broker state after the purge, whether the `NotFound` warning was logged,
and whether the worker was started (`initialize_plugins(start_worker=True)`),
which in the source happens only after the purge. -/
structure StartupOutcome where
  broker : List (String × List String)
  purgeWarningLogged : Bool
  workerStarted : Bool
  deriving DecidableEq, Repr

/-- The `if is_main_module():` startup block at the bottom of
`vision/servicenode/celery.py`: when running as the main/worker process, the
bids queue is purged on the broker before the worker starts accepting new
work; a missing bids queue (`amqp.exceptions.NotFound`) is caught and logged
as a warning, not fatal.  No other queue is touched. -/
def celeryStartup (isMainModule : Bool) (broker : List (String × List String)) :
    StartupOutcome :=
  if isMainModule then
    match queue_purge broker BIDS_QUEUE_NAME with
    | some purged => { broker := purged, purgeWarningLogged := false, workerStarted := true }
    | none => { broker := broker, purgeWarningLogged := true, workerStarted := true }
  else
    { broker := broker, purgeWarningLogged := false, workerStarted := false }

/-! ## REST API (`vision/servicenode/restapi.py`)

The responses the handlers produce.  The helpers `ok_response`,
`not_acceptable`, `conflict`, `resource_not_found`, `bad_request` and
`internal_server_error` come from `vision.common.restapi`; each error helper
aborts request processing with the corresponding HTTP status code. -/

/-- The hexadecimal characters accepted by Python's `int(_, 16)` digits. -/
def isHexDigitChar (c : Char) : Bool :=
  List.contains ("0123456789abcdefABCDEF".data) c

/-- Whether a character is an ASCII curly brace (the characters stripped by
`uuid.UUID`'s `strip` call). -/
def isCurlyBrace (c : Char) : Bool :=
  c.toNat = 123 || c.toNat = 125

/-- Removes every (leftmost, non-overlapping) occurrence of `pat` from the
character list, like Python's `str.replace(pat, '')`; `fuel` bounds the
recursion and is instantiated with the list length, which always suffices. -/
def removeTokenAux (pat : List Char) : Nat → List Char → List Char
  | 0, s => s
  | _, [] => []
  | fuel + 1, c :: rest =>
      if List.isPrefixOf pat (c :: rest) then
        removeTokenAux pat fuel (rest.drop (pat.length - 1))
      else
        c :: removeTokenAux pat fuel rest

/-- Python's `str.replace(pat, '')` on character lists. -/
def removeToken (pat : List Char) (s : List Char) : List Char :=
  removeTokenAux pat s.length s

/-- A syntactically valid UUID as parsed by the web layer: the 32 hexadecimal
digits, lower-cased. -/
structure UuidModel where
  hex32 : List Char
  deriving DecidableEq, Repr

/-- The UUID validation performed by `_TransferStatusSchema`'s
`marshmallow.fields.UUID` field, which delegates to Python's `uuid.UUID`
constructor: strip `urn:`/`uuid:` tokens, surrounding curly braces and
hyphens, then require exactly 32 hexadecimal digits.  Returns `none` for
every string that is not a valid UUID (the `marshmallow.ValidationError`
path). -/
def parseUuid (s : String) : Option UuidModel :=
  let cs1 := removeToken ("urn:".data) s.data
  let cs2 := removeToken ("uuid:".data) cs1
  let cs3 := ((cs2.dropWhile isCurlyBrace).reverse.dropWhile isCurlyBrace).reverse
  let cs4 := removeToken (['-']) cs3
  if cs4.length = 32 ∧ cs4.all isHexDigitChar then some ⟨cs4.map Char.toLower⟩ else none

/-- `str(uuid)`: the canonical dashed lower-case rendering of a UUID. -/
def UuidModel.toCanonicalString (u : UuidModel) : String :=
  String.mk (u.hex32.take 8) ++ "-" ++ String.mk ((u.hex32.drop 8).take 4) ++ "-" ++
    String.mk ((u.hex32.drop 12).take 4) ++ "-" ++ String.mk ((u.hex32.drop 16).take 4) ++
    "-" ++ String.mk (u.hex32.drop 20)

/-- The internal `TransferStatus` vocabulary (spec, section 3): the durable
state machine of a transfer record. -/
inductive TransferStatus where
  | accepted
  | sourceTransactionSubmitted
  | sourceTransactionConfirmed
  | sourceTransactionReverted
  | unresolvable
  deriving DecidableEq, Repr

/-- The data of one transfer request as seen by `_TransferSchema` (the
blockchain ids still numeric, as in the inbound JSON). -/
structure TransferRequestData where
  source_blockchain_id : Nat
  destination_blockchain_id : Nat
  sender_address : String
  recipient_address : String
  source_token_address : String
  destination_token_address : String
  amount : Int
  nonce : Nat
  deriving DecidableEq, Repr

/-- The distinct validation failures `_TransferSchema` can raise
(`marshmallow.ValidationError` with the corresponding field and message). -/
inductive ValidationFailure where
  | sourceBlockchainNotSupported
  | sourceBlockchainNotActive
  | destinationBlockchainNotSupported
  | invalidSenderAddress
  | invalidRecipientAddress
  | invalidSourceTokenAddress
  | invalidDestinationTokenAddress
  | invalidAmount
  deriving DecidableEq, Repr

/-- The chain-dependent checks `_TransferSchema` delegates to external
collaborators: the supported blockchain ids (the `Blockchain` enum), the
per-chain active/registered configuration flags, and the per-chain address
validity checks of the blockchain clients. -/
structure ChainEnv where
  supportedBlockchainIds : List Nat
  activeAndRegistered : Nat → Bool
  isValidAddress : Nat → String → Bool
  isValidRecipientAddress : Nat → String → Bool

/-- `_TransferSchema().load(...)` of `vision/servicenode/restapi.py`: the
field validation of `source_blockchain_id`/`destination_blockchain_id`
followed by `__validate_schema`, which checks the four addresses and then
the amount (`__check_amount`: reject if `amount <= 0`), in source order;
the first failing check raises `marshmallow.ValidationError`. -/
def transferSchemaLoad (env : ChainEnv) (d : TransferRequestData) :
    Except ValidationFailure TransferRequestData :=
  if d.source_blockchain_id ∈ env.supportedBlockchainIds then
    if env.activeAndRegistered d.source_blockchain_id then
      if d.destination_blockchain_id ∈ env.supportedBlockchainIds then
        if env.isValidAddress d.source_blockchain_id d.sender_address then
          if env.isValidRecipientAddress d.destination_blockchain_id d.recipient_address then
            if env.isValidAddress d.source_blockchain_id d.source_token_address then
              if env.isValidAddress d.destination_blockchain_id d.destination_token_address then
                if d.amount ≤ 0 then .error .invalidAmount
                else .ok d
              else .error .invalidDestinationTokenAddress
            else .error .invalidSourceTokenAddress
          else .error .invalidRecipientAddress
        else .error .invalidSenderAddress
      else .error .destinationBlockchainNotSupported
    else .error .sourceBlockchainNotActive
  else .error .sourceBlockchainNotSupported

/-- The outcome of `TransferInteractor().initiate_transfer(...)` as observed
by the request boundary: success with a task id, or one of the raised core
errors. -/
inductive InitiateTransferOutcome where
  | accepted (taskId : UuidModel)
  | senderNonceNotUnique
  | bidNotAccepted
  | unexpectedFault
  deriving DecidableEq, Repr

/-- The side-effect state the admission claims talk about: the persisted
`TransferRecord`s and the units of work enqueued for the resubmission
engine (both identified by their internal transaction ids). -/
structure World where
  persistedRecords : List UuidModel
  enqueuedWork : List UuidModel
  deriving DecidableEq, Repr

/-- What `find_transfer` returns (the `TransferRecord` snapshot fields the
status endpoint dumps). -/
structure FindTransferResponse where
  source_blockchain_id : Nat
  destination_blockchain_id : Nat
  sender_address : String
  recipient_address : String
  source_token_address : String
  destination_token_address : String
  amount : Int
  fee : Int
  status : TransferStatus
  transfer_id : Nat
  transaction_id : Option String
  deriving DecidableEq, Repr

/-- The body dumped by `_TransferStatusResponseSchema` (all fields required;
`transaction_id` is a plain string, never null/absent). -/
structure TransferStatusResponseBody where
  task_id : String
  source_blockchain_id : Nat
  destination_blockchain_id : Nat
  sender_address : String
  recipient_address : String
  source_token_address : String
  destination_token_address : String
  amount : Int
  fee : Int
  status : String
  transfer_id : Nat
  transaction_id : String
  deriving DecidableEq, Repr

/-- The HTTP responses the handlers produce (via the `vision.common.restapi`
helpers). -/
inductive HttpResponse where
  | okTransferResponse (taskId : UuidModel)
  | okTransferStatusResponse (body : TransferStatusResponseBody)
  | notAcceptable (failure : ValidationFailure)
  | notAcceptableBidRejected
  | conflict (message : String)
  | resourceNotFound (message : String)
  | internalServerError
  deriving DecidableEq, Repr

/-- The HTTP status code class of each response (`ok_response` → 200,
`not_acceptable` → 406, `conflict` → 409, `resource_not_found` → 404,
`internal_server_error` → 500). -/
def HttpResponse.statusCode : HttpResponse → Nat
  | .okTransferResponse _ => 200
  | .okTransferStatusResponse _ => 200
  | .notAcceptable _ => 406
  | .notAcceptableBidRejected => 406
  | .conflict _ => 409
  | .resourceNotFound _ => 404
  | .internalServerError => 500

/-- `_Transfer.post` of `vision/servicenode/restapi.py`: load and validate
the request through `_TransferSchema`, then call
`TransferInteractor().initiate_transfer`; a `marshmallow.ValidationError`
yields `not_acceptable`, a `SenderNonceNotUniqueError` yields `conflict`, a
`TransferInteractorBidNotAcceptedError` yields `not_acceptable`, any other
exception yields `internal_server_error`, and on success the task id is
returned via `ok_response`.  The interactor (an external call from this
module's point of view) is passed in as a state-passing function; the third
component of the result records whether `initiate_transfer` was invoked. -/
def transferPost (env : ChainEnv)
    (initiate_transfer : TransferRequestData → World → InitiateTransferOutcome × World)
    (d : TransferRequestData) (w : World) : HttpResponse × World × Bool :=
  match transferSchemaLoad env d with
  | .error failure => (.notAcceptable failure, w, false)
  | .ok req =>
      match initiate_transfer req w with
      | (.accepted taskId, w2) => (.okTransferResponse taskId, w2, true)
      | (.senderNonceNotUnique, w2) =>
          (.conflict ("sender nonce " ++ toString req.nonce ++ " is not unique"), w2, true)
      | (.bidNotAccepted, w2) => (.notAcceptableBidRejected, w2, true)
      | (.unexpectedFault, w2) => (.internalServerError, w2, true)

/-- The outcome of `TransferInteractor().find_transfer(...)` as observed by
the status endpoint: the record snapshot, a
`TransferInteractorResourceNotFoundError`, or any other exception. -/
inductive FindTransferOutcome where
  | found (record : FindTransferResponse)
  | notFound
  | unexpectedFault
  deriving DecidableEq, Repr

/-- The response-body dump at the end of `_TransferStatus.get`: the record's
fields, the status collapsed to the public vocabulary and lower-cased
(`find_transfer_response.status.to_public_status().name.lower()`, with
`to_public_status` living in the external `vision-common` status enum and
therefore passed in as a function), and `transaction_id` rendered as the
empty string when the record has no chain transaction id yet
(`'' if find_transfer_response.transaction_id is None else ...`). -/
def dumpTransferStatusResponse (toPublicStatusName : TransferStatus → String)
    (taskId : UuidModel) (record : FindTransferResponse) : TransferStatusResponseBody :=
  { task_id := taskId.toCanonicalString,
    source_blockchain_id := record.source_blockchain_id,
    destination_blockchain_id := record.destination_blockchain_id,
    sender_address := record.sender_address,
    recipient_address := record.recipient_address,
    source_token_address := record.source_token_address,
    destination_token_address := record.destination_token_address,
    amount := record.amount,
    fee := record.fee,
    status := String.toLower (toPublicStatusName record.status),
    transfer_id := record.transfer_id,
    transaction_id := match record.transaction_id with
      | none => ""
      | some t => t }

/-- `_TransferStatus.get` of `vision/servicenode/restapi.py`: validate the
`task_id` path parameter through `_TransferStatusSchema` (a UUID field); a
`marshmallow.ValidationError` yields `resource_not_found` ("... is not a
UUID") without invoking `find_transfer`; a
`TransferInteractorResourceNotFoundError` yields `resource_not_found`
("... is unknown"); any other exception yields `internal_server_error`; on
success the record is dumped through `_TransferStatusResponseSchema`.  The
second component of the result records the UUID `find_transfer` was invoked
with, if it was invoked. -/
def transferStatusGet (toPublicStatusName : TransferStatus → String)
    (find_transfer : UuidModel → FindTransferOutcome)
    (taskId : String) : HttpResponse × Option UuidModel :=
  match parseUuid taskId with
  | none => (.resourceNotFound ("task ID " ++ taskId ++ " is not a UUID"), none)
  | some u =>
      match find_transfer u with
      | .found record =>
          (.okTransferStatusResponse (dumpTransferStatusResponse toPublicStatusName u record),
            some u)
      | .notFound => (.resourceNotFound ("task ID " ++ taskId ++ " is unknown"), some u)
      | .unexpectedFault => (.internalServerError, some u)

/-! ## Helper lemmas on the broker model -/

/-- A successful purge empties the purged queue. -/
theorem queueContents_queue_purge_self (l : List (String × List String)) (n : String)
    (l2 : List (String × List String)) (h : queue_purge l n = some l2) :
    queueContents l2 n = some [] := by
  induction l generalizing l2 with
  | nil => simp [queue_purge] at h
  | cons q rest ih =>
      by_cases hq : q.1 = n
      · simp only [queue_purge, if_pos hq, Option.some.injEq] at h
        subst h
        simp [queueContents, hq]
      · simp only [queue_purge, if_neg hq] at h
        cases hrest : queue_purge rest n with
        | none => rw [hrest] at h; simp at h
        | some rest2 =>
            rw [hrest] at h
            simp only [Option.some.injEq] at h
            subst h
            simp only [queueContents, if_neg hq]
            exact ih rest2 hrest

/-- A successful purge leaves every other queue untouched. -/
theorem queueContents_queue_purge_other (l : List (String × List String)) (n : String)
    (l2 : List (String × List String)) (h : queue_purge l n = some l2) (m : String)
    (hm : m ≠ n) : queueContents l2 m = queueContents l m := by
  induction l generalizing l2 with
  | nil => simp [queue_purge] at h
  | cons q rest ih =>
      by_cases hq : q.1 = n
      · simp only [queue_purge, if_pos hq, Option.some.injEq] at h
        subst h
        have hqm : ¬q.1 = m := by rw [hq]; exact fun he => hm he.symm
        simp [queueContents, hqm]
      · simp only [queue_purge, if_neg hq] at h
        cases hrest : queue_purge rest n with
        | none => rw [hrest] at h; simp at h
        | some rest2 =>
            rw [hrest] at h
            simp only [Option.some.injEq] at h
            subst h
            simp only [queueContents]
            by_cases hqm : q.1 = m
            · simp [hqm]
            · simp only [if_neg hqm]
              exact ih rest2 hrest

/-- Purging an existing queue succeeds. -/
theorem queue_purge_isSome_of_queueContents (l : List (String × List String)) (n : String)
    (c : List String) (h : queueContents l n = some c) : (queue_purge l n).isSome = true := by
  induction l with
  | nil => simp [queueContents] at h
  | cons q rest ih =>
      by_cases hq : q.1 = n
      · simp [queue_purge, hq]
      · simp only [queueContents, if_neg hq] at h
        simp only [queue_purge, if_neg hq]
        cases hrest : queue_purge rest n with
        | none => rw [hrest] at ih; exact absurd (ih h) (by simp)
        | some rest2 => simp

/-- Purging an absent queue fails with `NotFound`. -/
theorem queue_purge_eq_none_of_queueContents (l : List (String × List String)) (n : String)
    (h : queueContents l n = none) : queue_purge l n = none := by
  induction l with
  | nil => rfl
  | cons q rest ih =>
      by_cases hq : q.1 = n
      · simp [queueContents, hq] at h
      · simp only [queueContents, if_neg hq] at h
        simp only [queue_purge, if_neg hq]
        rw [ih h]

/-! ## Claims about the BlockchainClient (modelled from the spec) -/

/-- C1: every error raised by the underlying chain-access utility during
status polling makes `get_transfer_submission_status` fail with an
`UnresolvableTransferSubmissionError` wrapping that error, and every failure
of the operation is of that kind — the raw underlying error type is never
propagated to the caller. -/
theorem get_transfer_submission_status_wraps_errors
    (utilityStatusResult : Except BlockchainUtilitiesError UtilityStatusResponse)
    (readOnChainTransferIdResult : Except BlockchainUtilitiesError Nat) :
    (∀ e, utilityStatusResult = .error e →
        get_transfer_submission_status utilityStatusResult readOnChainTransferIdResult =
          .error (.unresolvableTransferSubmission (some e))) ∧
    (∀ err,
        get_transfer_submission_status utilityStatusResult readOnChainTransferIdResult =
          .error err →
        err.isUnresolvableTransferSubmission = true) := by
  constructor
  · rintro e rfl
    rfl
  · intro err herr
    cases utilityStatusResult with
    | error e =>
        simp only [get_transfer_submission_status, Except.error.injEq] at herr
        rw [← herr]
        rfl
    | ok sr =>
        simp only [get_transfer_submission_status] at herr
        by_cases hc : sr.transaction_submission_completed
        · rw [if_pos hc] at herr
          cases hs : sr.transaction_status with
          | none => rw [hs] at herr; simp at herr
          | some ts =>
              rw [hs] at herr
              cases ts with
              | reverted => simp at herr
              | confirmed =>
                  cases readOnChainTransferIdResult with
                  | error e =>
                      simp only [Except.error.injEq] at herr
                      rw [← herr]
                      rfl
                  | ok oid => simp at herr
        · rw [if_neg hc] at herr
          simp at herr

/-- Witness for C1 at a concrete underlying error. -/
theorem get_transfer_submission_status_wraps_errors_witness :
    get_transfer_submission_status
        (.error { message := "RPC error" }) (.ok 10512) =
      .error (.unresolvableTransferSubmission (some { message := "RPC error" })) :=
  (get_transfer_submission_status_wraps_errors
    (.error { message := "RPC error" }) (.ok 10512)).1 { message := "RPC error" } rfl

/-- C2: a completed response of `get_transfer_submission_status` carries the
underlying chain transaction id and terminal transaction status; when that
status is CONFIRMED, the response additionally carries the on-chain transfer
id obtained from the separate `_read_on_chain_transfer_id` read, and when it
is REVERTED the on-chain transfer id is absent. -/
theorem get_transfer_submission_status_completed_fields
    (utilityStatusResult : Except BlockchainUtilitiesError UtilityStatusResponse)
    (readOnChainTransferIdResult : Except BlockchainUtilitiesError Nat)
    (r : TransferSubmissionStatusResponse)
    (h : get_transfer_submission_status utilityStatusResult readOnChainTransferIdResult = .ok r)
    (hc : r.transaction_submission_completed = true) :
    ∃ sr, utilityStatusResult = .ok sr ∧
      r.transaction_id = sr.transaction_id ∧
      r.transaction_status = sr.transaction_status ∧
      (r.transaction_status = some .confirmed →
        ∃ oid, readOnChainTransferIdResult = .ok oid ∧ r.on_chain_transfer_id = some oid) ∧
      (r.transaction_status = some .reverted → r.on_chain_transfer_id = none) := by
  cases utilityStatusResult with
  | error e => simp [get_transfer_submission_status] at h
  | ok sr =>
      refine ⟨sr, rfl, ?_⟩
      simp only [get_transfer_submission_status] at h
      by_cases hcomp : sr.transaction_submission_completed
      · rw [if_pos hcomp] at h
        cases hs : sr.transaction_status with
        | none =>
            rw [hs] at h
            simp only [Except.ok.injEq] at h
            subst h
            simp [hs]
        | some ts =>
            rw [hs] at h
            cases ts with
            | confirmed =>
                cases readOnChainTransferIdResult with
                | error e => simp at h
                | ok oid =>
                    simp only [Except.ok.injEq] at h
                    subst h
                    refine ⟨rfl, by simp [hs], fun _ => ⟨oid, rfl, rfl⟩, fun hrev => ?_⟩
                    simp at hrev
            | reverted =>
                simp only [Except.ok.injEq] at h
                subst h
                refine ⟨rfl, by simp [hs], fun hconf => ?_, fun _ => rfl⟩
                simp at hconf
      · rw [if_neg hcomp] at h
        simp only [Except.ok.injEq] at h
        subst h
        simp at hc

/-- Witness for C2 at a concrete CONFIRMED underlying response. -/
theorem get_transfer_submission_status_completed_fields_witness :
    ∃ sr, (.ok { transaction_submission_completed := true,
                 transaction_status := some .confirmed,
                 transaction_id := some "0x5792e26d11cdf54155de59de5ddcca3f9d084ce89f4b5d4f9e50ec30c726be70" } :
              Except BlockchainUtilitiesError UtilityStatusResponse) = .ok sr ∧
      (some "0x5792e26d11cdf54155de59de5ddcca3f9d084ce89f4b5d4f9e50ec30c726be70" :
          Option String) = sr.transaction_id ∧
      (some TransactionStatus.confirmed : Option TransactionStatus) = sr.transaction_status ∧
      ((some TransactionStatus.confirmed : Option TransactionStatus) = some .confirmed →
        ∃ oid, (.ok 10512 : Except BlockchainUtilitiesError Nat) = .ok oid ∧
          (some 10512 : Option Nat) = some oid) ∧
      ((some TransactionStatus.confirmed : Option TransactionStatus) = some .reverted →
        (some 10512 : Option Nat) = none) :=
  get_transfer_submission_status_completed_fields
    (.ok { transaction_submission_completed := true,
           transaction_status := some .confirmed,
           transaction_id := some "0x5792e26d11cdf54155de59de5ddcca3f9d084ce89f4b5d4f9e50ec30c726be70" })
    (.ok 10512)
    { transaction_submission_completed := true,
      transaction_status := some .confirmed,
      transaction_id := some "0x5792e26d11cdf54155de59de5ddcca3f9d084ce89f4b5d4f9e50ec30c726be70",
      on_chain_transfer_id := some 10512 }
    rfl rfl

/-- C3: whenever the underlying poll reports the transaction as still
pending, `get_transfer_submission_status` returns (never raises) a response
with `transaction_submission_completed = false` and with the transaction
status, transaction id and on-chain transfer id all absent. -/
theorem get_transfer_submission_status_pending_response
    (utilityStatusResult : Except BlockchainUtilitiesError UtilityStatusResponse)
    (readOnChainTransferIdResult : Except BlockchainUtilitiesError Nat)
    (sr : UtilityStatusResponse)
    (h : utilityStatusResult = .ok sr)
    (hp : sr.transaction_submission_completed = false) :
    get_transfer_submission_status utilityStatusResult readOnChainTransferIdResult =
      .ok { transaction_submission_completed := false, transaction_status := none,
            transaction_id := none, on_chain_transfer_id := none } := by
  subst h
  simp [get_transfer_submission_status, hp]

/-- Witness for C3 at a concrete pending underlying response. -/
theorem get_transfer_submission_status_pending_response_witness :
    get_transfer_submission_status
        (.ok { transaction_submission_completed := false, transaction_status := none,
               transaction_id := none })
        (.ok 10512) =
      .ok { transaction_submission_completed := false, transaction_status := none,
            transaction_id := none, on_chain_transfer_id := none } :=
  get_transfer_submission_status_pending_response
    (.ok { transaction_submission_completed := false, transaction_status := none,
           transaction_id := none })
    (.ok 10512)
    { transaction_submission_completed := false, transaction_status := none,
      transaction_id := none }
    rfl rfl

/-- C4: when the chain-access utility fails to initialize during client
construction, the constructor fails with the component's classified
`BlockchainClientError`, and the original underlying failure is preserved as
its wrapped cause, not discarded and not propagated raw. -/
theorem blockchain_client_init_preserves_cause
    (config : ChainConfig) (initializeUtilitiesResult : Except BlockchainUtilitiesError Unit)
    (e : BlockchainUtilitiesError) (h : initializeUtilitiesResult = .error e) :
    ∃ msg, blockchainClientInit config initializeUtilitiesResult =
        .error (.blockchainClientError msg (some e)) ∧
      ∀ err, blockchainClientInit config initializeUtilitiesResult = .error err →
        err.cause = some e ∧ err.isUnresolvableTransferSubmission = false := by
  subst h
  refine ⟨"unable to initialize the blockchain client", rfl, ?_⟩
  intro err herr
  simp only [blockchainClientInit, Except.error.injEq] at herr
  rw [← herr]
  exact ⟨rfl, rfl⟩

/-- Witness for C4 at a concrete initialization failure. -/
theorem blockchain_client_init_preserves_cause_witness :
    ∃ msg, blockchainClientInit
          { average_block_time := 14, confirmations := 12, chain_id := 1 }
          (.error { message := "node unreachable" }) =
        .error (.blockchainClientError msg (some { message := "node unreachable" })) ∧
      ∀ err, blockchainClientInit
          { average_block_time := 14, confirmations := 12, chain_id := 1 }
          (.error { message := "node unreachable" }) = .error err →
        err.cause = some { message := "node unreachable" } ∧
        err.isUnresolvableTransferSubmission = false :=
  blockchain_client_init_preserves_cause
    { average_block_time := 14, confirmations := 12, chain_id := 1 }
    (.error { message := "node unreachable" }) { message := "node unreachable" } rfl

/-! ## Example instantiations used by the witnesses -/

/-- A chain environment in which every address check passes. -/
def exampleChainEnv : ChainEnv :=
  { supportedBlockchainIds := [0, 1],
    activeAndRegistered := fun _ => true,
    isValidAddress := fun _ _ => true,
    isValidRecipientAddress := fun _ _ => true }

/-- A transfer request with a positive amount. -/
def exampleRequest : TransferRequestData :=
  { source_blockchain_id := 0, destination_blockchain_id := 1,
    sender_address := "0x7De6Ce2Ce98B446CdD2730d2D49B0e1FEe2Ff85C",
    recipient_address := "0xcd8fa68c471d7703C074EA5e2C56B852795B33c0",
    source_token_address := "0xcd8fa68c471d7703C074EA5e2C56B852795B33c0",
    destination_token_address := "0xcd8fa68c471d7703C074EA5e2C56B852795B33c0",
    amount := 100, nonce := 1337 }

/-- A world with no persisted records and no enqueued work. -/
def exampleWorld : World := { persistedRecords := [], enqueuedWork := [] }

/-- An interactor stub that raises `SenderNonceNotUniqueError`. -/
def nonceConflictInteractor : TransferRequestData → World → InitiateTransferOutcome × World :=
  fun _ w => (.senderNonceNotUnique, w)

/-- A public-status naming stub for the external `to_public_status().name`. -/
def examplePublicStatusName : TransferStatus → String := fun _ => "CONFIRMED"

/-- A concrete transfer record snapshot. -/
def exampleRecord : FindTransferResponse :=
  { source_blockchain_id := 0, destination_blockchain_id := 1,
    sender_address := "0x7De6Ce2Ce98B446CdD2730d2D49B0e1FEe2Ff85C",
    recipient_address := "0xcd8fa68c471d7703C074EA5e2C56B852795B33c0",
    source_token_address := "0xcd8fa68c471d7703C074EA5e2C56B852795B33c0",
    destination_token_address := "0xcd8fa68c471d7703C074EA5e2C56B852795B33c0",
    amount := 100, fee := 10, status := .sourceTransactionConfirmed,
    transfer_id := 10512,
    transaction_id :=
      some "0x5792e26d11cdf54155de59de5ddcca3f9d084ce89f4b5d4f9e50ec30c726be70" }

/-- A lookup stub that finds `exampleRecord` for every id. -/
def exampleFoundLookup : UuidModel → FindTransferOutcome := fun _ => .found exampleRecord

/-- A lookup stub that raises `TransferInteractorResourceNotFoundError`. -/
def exampleNotFoundLookup : UuidModel → FindTransferOutcome := fun _ => .notFound

/-- The nil UUID in canonical string form. -/
def zeroUuidString : String := "00000000-0000-0000-0000-000000000000"

/-- The nil UUID. -/
def zeroUuid : UuidModel := { hex32 := List.replicate 32 '0' }

/-- An example broker state holding all three work queues. -/
def exampleBroker : List (String × List String) :=
  [("bids", ["stale-bid"]), ("transfers", ["t1"]), ("transactions", [])]

/-! ## Claims about the REST API and the Celery wiring -/

/-- C5: every transfer request with `amount <= 0` fails `_TransferSchema`
validation, so `_Transfer.post` responds with the 406 `not_acceptable`
response before `TransferInteractor.initiate_transfer` is ever invoked: no
`TransferRecord` is persisted and no work is enqueued (the world state is
returned unchanged, whatever the interactor would have done). -/
theorem transfer_post_rejects_nonpositive_amount
    (env : ChainEnv)
    (initiate_transfer : TransferRequestData → World → InitiateTransferOutcome × World)
    (d : TransferRequestData) (w : World) (h : d.amount ≤ 0) :
    (∃ failure, transferSchemaLoad env d = .error failure) ∧
    (transferPost env initiate_transfer d w).1.statusCode = 406 ∧
    (transferPost env initiate_transfer d w).2.1 = w ∧
    (transferPost env initiate_transfer d w).2.2 = false := by
  have hload : ∃ failure, transferSchemaLoad env d = .error failure := by
    unfold transferSchemaLoad
    split_ifs <;> exact ⟨_, rfl⟩
  obtain ⟨failure, hf⟩ := hload
  refine ⟨⟨failure, hf⟩, ?_, ?_, ?_⟩ <;> simp [transferPost, hf, HttpResponse.statusCode]

/-- Witness for C5 at amount 0. -/
theorem transfer_post_rejects_nonpositive_amount_witness :
    (0 : Int) ≤ 0 ∧
    ((∃ failure,
        transferSchemaLoad exampleChainEnv { exampleRequest with amount := 0 } =
          .error failure) ∧
      (transferPost exampleChainEnv nonceConflictInteractor
          { exampleRequest with amount := 0 } exampleWorld).1.statusCode = 406 ∧
      (transferPost exampleChainEnv nonceConflictInteractor
          { exampleRequest with amount := 0 } exampleWorld).2.1 = exampleWorld ∧
      (transferPost exampleChainEnv nonceConflictInteractor
          { exampleRequest with amount := 0 } exampleWorld).2.2 = false) :=
  ⟨by decide,
    transfer_post_rejects_nonpositive_amount exampleChainEnv nonceConflictInteractor
      { exampleRequest with amount := 0 } exampleWorld (by decide)⟩

/-- C6: the request boundary maps each core error to its HTTP class:
validation failures yield the 406 `not_acceptable` response, a
`SenderNonceNotUniqueError` yields the 409 `conflict` response (with the
nonce in the message), a `TransferInteractorBidNotAcceptedError` yields the
406 response, an unknown task id on the status lookup yields the 404
`resource_not_found` response, and any other unhandled fault yields the 500
`internal_server_error` response. -/
theorem request_boundary_http_error_mapping
    (env : ChainEnv)
    (initiate_transfer : TransferRequestData → World → InitiateTransferOutcome × World)
    (d : TransferRequestData) (w : World)
    (toPublicStatusName : TransferStatus → String)
    (find_transfer : UuidModel → FindTransferOutcome) (taskId : String) :
    (∀ failure, transferSchemaLoad env d = .error failure →
        (transferPost env initiate_transfer d w).1.statusCode = 406) ∧
    (∀ req w2, transferSchemaLoad env d = .ok req →
        initiate_transfer req w = (.senderNonceNotUnique, w2) →
        (transferPost env initiate_transfer d w).1 =
          .conflict ("sender nonce " ++ toString req.nonce ++ " is not unique") ∧
        (transferPost env initiate_transfer d w).1.statusCode = 409) ∧
    (∀ req w2, transferSchemaLoad env d = .ok req →
        initiate_transfer req w = (.bidNotAccepted, w2) →
        (transferPost env initiate_transfer d w).1.statusCode = 406) ∧
    (∀ req w2, transferSchemaLoad env d = .ok req →
        initiate_transfer req w = (.unexpectedFault, w2) →
        (transferPost env initiate_transfer d w).1.statusCode = 500) ∧
    (∀ u, parseUuid taskId = some u → find_transfer u = .notFound →
        (transferStatusGet toPublicStatusName find_transfer taskId).1.statusCode = 404) ∧
    (∀ u, parseUuid taskId = some u → find_transfer u = .unexpectedFault →
        (transferStatusGet toPublicStatusName find_transfer taskId).1.statusCode = 500) := by
  refine ⟨?_, ?_, ?_, ?_, ?_, ?_⟩
  · intro failure hf
    simp [transferPost, hf, HttpResponse.statusCode]
  · intro req w2 hload hi
    simp [transferPost, hload, hi, HttpResponse.statusCode]
  · intro req w2 hload hi
    simp [transferPost, hload, hi, HttpResponse.statusCode]
  · intro req w2 hload hi
    simp [transferPost, hload, hi, HttpResponse.statusCode]
  · intro u hu hfind
    simp [transferStatusGet, hu, hfind, HttpResponse.statusCode]
  · intro u hu hfind
    simp [transferStatusGet, hu, hfind, HttpResponse.statusCode]

/-- Witness for C6: a nonce conflict on a valid request maps to 409, and an
unknown (but well-formed) task id on the status lookup maps to 404. -/
theorem request_boundary_http_error_mapping_witness :
    ((transferPost exampleChainEnv nonceConflictInteractor exampleRequest
        exampleWorld).1 =
      .conflict ("sender nonce " ++ toString exampleRequest.nonce ++ " is not unique") ∧
      (transferPost exampleChainEnv nonceConflictInteractor exampleRequest
          exampleWorld).1.statusCode = 409) ∧
    (transferStatusGet examplePublicStatusName exampleNotFoundLookup
        zeroUuidString).1.statusCode = 404 := by
  have h := request_boundary_http_error_mapping exampleChainEnv nonceConflictInteractor
    exampleRequest exampleWorld examplePublicStatusName exampleNotFoundLookup zeroUuidString
  exact ⟨h.2.1 exampleRequest exampleWorld rfl rfl,
    h.2.2.2.2.1 zeroUuid (by decide) rfl⟩

/-- C7: at startup of the main/worker process, the bids queue is purged on
the broker (its pending work discarded) while every other queue — in
particular `transfers` and `transactions` — is left untouched; a missing
bids queue only logs a warning and the worker still starts. -/
theorem celery_startup_purges_only_bids_queue (broker : List (String × List String)) :
    (∀ contents, queueContents broker "bids" = some contents →
        queueContents (celeryStartup true broker).broker "bids" = some [] ∧
        (celeryStartup true broker).purgeWarningLogged = false) ∧
    (∀ name, name ≠ "bids" →
        queueContents (celeryStartup true broker).broker name = queueContents broker name) ∧
    (queueContents broker "bids" = none →
        (celeryStartup true broker).broker = broker ∧
        (celeryStartup true broker).purgeWarningLogged = true ∧
        (celeryStartup true broker).workerStarted = true) := by
  refine ⟨?_, ?_, ?_⟩
  · intro contents hc
    have hsome := queue_purge_isSome_of_queueContents broker "bids" contents hc
    cases hp : queue_purge broker "bids" with
    | none => rw [hp] at hsome; simp at hsome
    | some purged =>
        constructor
        · simp only [celeryStartup, if_pos rfl, BIDS_QUEUE_NAME, hp]
          exact queueContents_queue_purge_self broker "bids" purged hp
        · simp [celeryStartup, BIDS_QUEUE_NAME, hp]
  · intro name hn
    cases hp : queue_purge broker "bids" with
    | none => simp [celeryStartup, BIDS_QUEUE_NAME, hp]
    | some purged =>
        simp only [celeryStartup, if_pos rfl, BIDS_QUEUE_NAME, hp]
        exact queueContents_queue_purge_other broker "bids" purged hp name hn
  · intro hnone
    have hp := queue_purge_eq_none_of_queueContents broker "bids" hnone
    simp [celeryStartup, BIDS_QUEUE_NAME, hp]

/-- Witness for C7 at a concrete broker state: the stale bid is discarded
while the transfers queue keeps its pending work. -/
theorem celery_startup_purges_only_bids_queue_witness :
    queueContents (celeryStartup true exampleBroker).broker "bids" = some [] ∧
    (celeryStartup true exampleBroker).purgeWarningLogged = false ∧
    queueContents (celeryStartup true exampleBroker).broker "transfers" = some ["t1"] := by
  have h := celery_startup_purges_only_bids_queue exampleBroker
  refine ⟨(h.1 ["stale-bid"] (by decide)).1, (h.1 ["stale-bid"] (by decide)).2, ?_⟩
  rw [h.2.1 "transfers" (by decide)]
  decide

/-- C8: the configured task routes segregate the three work classes into
distinct queues: the bid-expiry task `execute_bid_plugin` goes to the `bids`
queue, every `vision.servicenode.business.transfers` task and the
transaction resubmission task go to the `transfers` queue, and the dependent
transaction submission task goes to the `transactions` queue; the three
queue names are pairwise distinct. -/
theorem task_routes_segregate_work_classes :
    routeTaskToQueue "vision.servicenode.business.plugins.execute_bid_plugin" =
      BIDS_QUEUE_NAME ∧
    (∀ taskName, matchesTransfersGlob taskName = true →
        routeTaskToQueue taskName = TRANSFERS_QUEUE_NAME) ∧
    routeTaskToQueue "vision.common.blockchains.tasks._transaction_resubmission_task" =
      TRANSFERS_QUEUE_NAME ∧
    routeTaskToQueue
        "vision.servicenode.business.tasks._dependent_transaction_submission_task" =
      TRANSACTIONS_QUEUE_NAME ∧
    BIDS_QUEUE_NAME ≠ TRANSFERS_QUEUE_NAME ∧
    BIDS_QUEUE_NAME ≠ TRANSACTIONS_QUEUE_NAME ∧
    TRANSFERS_QUEUE_NAME ≠ TRANSACTIONS_QUEUE_NAME := by
  refine ⟨by decide, ?_, by decide, by decide, by decide, by decide, by decide⟩
  intro taskName h
  have hne : taskName ≠ "vision.servicenode.business.plugins.execute_bid_plugin" := by
    intro heq
    rw [heq] at h
    exact absurd h (by decide)
  simp [routeTaskToQueue, hne, h]

/-- Witness for C8 at a concrete transfers task name. -/
theorem task_routes_segregate_work_classes_witness :
    routeTaskToQueue "vision.servicenode.business.transfers.execute_transfer" =
      TRANSFERS_QUEUE_NAME ∧
    routeTaskToQueue "vision.servicenode.business.plugins.execute_bid_plugin" =
      BIDS_QUEUE_NAME :=
  ⟨task_routes_segregate_work_classes.2.1
      "vision.servicenode.business.transfers.execute_transfer" (by decide),
    task_routes_segregate_work_classes.1⟩

/-- C9: every `task_id` path parameter that is not a valid UUID makes the
transfer-status endpoint respond with the 404 `resource_not_found` response
stating that the task ID is not a UUID, without ever invoking the
`TransferInteractor` lookup; conversely, only syntactically valid UUIDs
reach `find_transfer`. -/
theorem transfer_status_rejects_non_uuid_task_id
    (toPublicStatusName : TransferStatus → String)
    (find_transfer : UuidModel → FindTransferOutcome) (taskId : String) :
    (parseUuid taskId = none →
        transferStatusGet toPublicStatusName find_transfer taskId =
          (.resourceNotFound ("task ID " ++ taskId ++ " is not a UUID"), none)) ∧
    (∀ u, (transferStatusGet toPublicStatusName find_transfer taskId).2 = some u →
        parseUuid taskId = some u) := by
  constructor
  · intro h
    simp [transferStatusGet, h]
  · intro u hu
    cases hp : parseUuid taskId with
    | none => simp [transferStatusGet, hp] at hu
    | some v =>
        simp only [transferStatusGet, hp] at hu
        cases hf : find_transfer v <;> rw [hf] at hu <;> simp at hu <;> rw [hu]

/-- Witness for C9 at a concrete non-UUID path parameter. -/
theorem transfer_status_rejects_non_uuid_task_id_witness :
    parseUuid "123" = none ∧
    transferStatusGet examplePublicStatusName exampleFoundLookup "123" =
      (.resourceNotFound ("task ID " ++ "123" ++ " is not a UUID"), none) :=
  ⟨by decide,
    (transfer_status_rejects_non_uuid_task_id examplePublicStatusName exampleFoundLookup
      "123").1 (by decide)⟩

/-- C10: in every successful transfer-status response, the `transaction_id`
field equals the record's chain transaction id when one is known and the
empty string (the field is a plain string, never null/absent) when the
record has none yet, and the `status` field is the record's internal status
collapsed to the public vocabulary and lower-cased. -/
theorem transfer_status_response_fields
    (toPublicStatusName : TransferStatus → String)
    (find_transfer : UuidModel → FindTransferOutcome) (taskId : String)
    (u : UuidModel) (record : FindTransferResponse)
    (hu : parseUuid taskId = some u) (hf : find_transfer u = .found record) :
    ∃ body, (transferStatusGet toPublicStatusName find_transfer taskId).1 =
        .okTransferStatusResponse body ∧
      (∀ t, record.transaction_id = some t → body.transaction_id = t) ∧
      (record.transaction_id = none → body.transaction_id = "") ∧
      body.status = String.toLower (toPublicStatusName record.status) := by
  refine ⟨dumpTransferStatusResponse toPublicStatusName u record, ?_, ?_, ?_, rfl⟩
  · simp [transferStatusGet, hu, hf]
  · intro t ht
    simp [dumpTransferStatusResponse, ht]
  · intro ht
    simp [dumpTransferStatusResponse, ht]

/-- Witness for C10 at a concrete valid task id and record. -/
theorem transfer_status_response_fields_witness :
    parseUuid zeroUuidString = some zeroUuid ∧
    ∃ body,
      (transferStatusGet examplePublicStatusName exampleFoundLookup zeroUuidString).1 =
        .okTransferStatusResponse body ∧
      (∀ t, exampleRecord.transaction_id = some t → body.transaction_id = t) ∧
      (exampleRecord.transaction_id = none → body.transaction_id = "") ∧
      body.status = String.toLower (examplePublicStatusName exampleRecord.status) :=
  ⟨by decide,
    transfer_status_response_fields examplePublicStatusName exampleFoundLookup
      zeroUuidString zeroUuid exampleRecord (by decide) rfl⟩

end ServiceNode
